import Mathlib

/-!
# Verification of the futures-trading CLI against its specification

Shallow embedding of the three Python modules of the repository
(`binance_client.py`, `cli_handler.py`, `config.py`) and proofs of the
specification's claims about them.

Conventions of the embedding:
* Python floats / `Decimal` values are modelled as `ℚ`; `round(x, n)` is
  round-half-to-even at `n` decimal places.
* Machine words inside SHA-256 are `Nat` kept below `2^32` by explicit `%`.
* The HTTP transport is a parameter (`Net`): a function from the method, the
  URL and the transmitted parameter list to a transport outcome.  A result
  that holds for every `Net` (or is reached without consulting it) is a
  result obtained without any network call.
* Python exceptions are modelled with `Except String`, carrying the message
  of the raised exception (the code raises plain `Exception`/`ValueError`
  objects distinguished only by message).
-/

namespace FT

/-! ## SHA-256 over byte lists (models Python's `hashlib.sha256`) -/

def w32 (n : Nat) : Nat := n % 4294967296

def badd (a b : Nat) : Nat := (a + b) % 4294967296

def rotr32 (n x : Nat) : Nat := w32 ((x >>> n) ||| (x <<< (32 - n)))

def sml0 (x : Nat) : Nat := rotr32 7 x ^^^ rotr32 18 x ^^^ (x >>> 3)

def sml1 (x : Nat) : Nat := rotr32 17 x ^^^ rotr32 19 x ^^^ (x >>> 10)

def big0 (x : Nat) : Nat := rotr32 2 x ^^^ rotr32 13 x ^^^ rotr32 22 x

def big1 (x : Nat) : Nat := rotr32 6 x ^^^ rotr32 11 x ^^^ rotr32 25 x

def chv (e f g : Nat) : Nat := (e &&& f) ^^^ ((e ^^^ 4294967295) &&& g)

def majv (a b c : Nat) : Nat := (a &&& b) ^^^ (a &&& c) ^^^ (b &&& c)

def K256 : List Nat :=
  [1116352408, 1899447441, 3049323471, 3921009573, 961987163,
   1508970993, 2453635748, 2870763221, 3624381080, 310598401,
   607225278, 1426881987, 1925078388, 2162078206, 2614888103,
   3248222580, 3835390401, 4022224774, 264347078, 604807628,
   770255983, 1249150122, 1555081692, 1996064986, 2554220882,
   2821834349, 2952996808, 3210313671, 3336571891, 3584528711,
   113926993, 338241895, 666307205, 773529912, 1294757372,
   1396182291, 1695183700, 1986661051, 2177026350, 2456956037,
   2730485921, 2820302411, 3259730800, 3345764771, 3516065817,
   3600352804, 4094571909, 275423344, 430227734, 506948616,
   659060556, 883997877, 958139571, 1322822218, 1537002063,
   1747873779, 1955562222, 2024104815, 2227730452, 2361852424,
   2428436474, 2756734187, 3204031479, 3329325298]

def H256 : List Nat :=
  [1779033703, 3144134277, 1013904242, 2773480762,
   1359893119, 2600822924, 528734635, 1541459225]

def bytesToWords : List Nat → List Nat
  | a :: b :: c :: d :: rest => (((a * 256 + b) * 256 + c) * 256 + d) :: bytesToWords rest
  | _ => []

def extendW : Nat → List Nat → List Nat
  | 0, ws => ws
  | k + 1, ws =>
    let i := ws.length
    let nw := badd (badd (sml1 (ws.getD (i - 2) 0)) (ws.getD (i - 7) 0))
                   (badd (sml0 (ws.getD (i - 15) 0)) (ws.getD (i - 16) 0))
    extendW k (ws ++ [nw])

def roundStep (st : List Nat) (kw : Nat × Nat) : List Nat :=
  match st with
  | [a, b, c, d, e, f, g, h] =>
    let t1 := badd (badd (badd h (big1 e)) (badd (chv e f g) kw.1)) kw.2
    let t2 := badd (big0 a) (majv a b c)
    [badd t1 t2, a, b, c, badd d t1, e, f, g]
  | st => st

def compressBlock (h : List Nat) (block : List Nat) : List Nat :=
  let ws := extendW 48 (bytesToWords block)
  let st := (K256.zip ws).foldl roundStep h
  h.zipWith badd st

def chunks64Aux : Nat → List Nat → List (List Nat)
  | 0, _ => []
  | _, [] => []
  | n + 1, l => l.take 64 :: chunks64Aux n (l.drop 64)

def chunks64 (l : List Nat) : List (List Nat) := chunks64Aux l.length l

def lenBytes (bits : Nat) : List Nat :=
  [(bits >>> 56) % 256, (bits >>> 48) % 256, (bits >>> 40) % 256, (bits >>> 32) % 256,
   (bits >>> 24) % 256, (bits >>> 16) % 256, (bits >>> 8) % 256, bits % 256]

def padBytes (m : List Nat) : List Nat :=
  m ++ [128] ++ List.replicate ((119 - m.length % 64) % 64) 0 ++ lenBytes (8 * m.length)

def wordBytes (w : Nat) : List Nat := [(w >>> 24) % 256, (w >>> 16) % 256, (w >>> 8) % 256, w % 256]

def sha256Bytes (m : List Nat) : List Nat :=
  (((chunks64 (padBytes m)).foldl compressBlock H256).map wordBytes).flatten

def hexChar (n : Nat) : Char := if n < 10 then Char.ofNat (48 + n) else Char.ofNat (87 + n)

def bytesHex (bs : List Nat) : String :=
  String.mk ((bs.map fun b => [hexChar (b / 16), hexChar (b % 16)]).flatten)

/-- UTF-8 encoding of a string as a byte list (models Python `str.encode("utf-8")`). -/
def encodeCharUtf8 (c : Char) : List Nat :=
  let n := c.toNat
  if n < 128 then [n]
  else if n < 2048 then [192 + n / 64, 128 + n % 64]
  else if n < 65536 then [224 + n / 4096, 128 + (n / 64) % 64, 128 + n % 64]
  else [240 + n / 262144, 128 + (n / 4096) % 64, 128 + (n / 64) % 64, 128 + n % 64]

def utf8Bytes (s : String) : List Nat := (s.data.map encodeCharUtf8).flatten

/-- HMAC-SHA256 over byte lists (models Python `hmac.new(key, msg, hashlib.sha256)`). -/
def hmacSha256 (key msg : List Nat) : List Nat :=
  let k0 := if 64 < key.length then sha256Bytes key else key
  let k := k0 ++ List.replicate (64 - k0.length) 0
  sha256Bytes ((k.map (· ^^^ 92)) ++ sha256Bytes ((k.map (· ^^^ 54)) ++ msg))

/-- `hmac.new(key.encode, msg.encode, hashlib.sha256).hexdigest()`. -/
def hmacSha256Hex (key msg : String) : String :=
  bytesHex (hmacSha256 (utf8Bytes key) (utf8Bytes msg))

/-! ## Parameter values and URL encoding

`binance_client.py` builds parameter dicts whose values are strings, ints
(the timestamp) or rounded floats.  `urllib.parse.urlencode` stringifies each
value and percent-encodes it with `quote_plus`. -/

/-- Model of Python `str.upper()` (character-wise uppercasing). -/
def pyUpper (s : String) : String := String.mk (s.data.map Char.toUpper)

inductive Value where
  | str (s : String)
  | rat (q : ℚ)
  | int (n : ℤ)
deriving DecidableEq

/-- Digits of the fractional part `0 ≤ q < 1`, stopping at 0 (fuel-bounded).
Part of the model of Python's `str(float)`. -/
def fracDigits : Nat → ℚ → List Char
  | 0, _ => []
  | n + 1, q =>
    if q = 0 then []
    else
      let d := (⌊q * 10⌋).toNat
      Char.ofNat (48 + d) :: fracDigits n (q * 10 - (d : ℚ))

/-- Model of Python's `str` on a (finite, decimal) float value. -/
def ratRender (q : ℚ) : String :=
  let sgn := if q < 0 then "-" else ""
  let a := |q|
  let ip := (⌊a⌋).toNat
  let ds := fracDigits 17 (a - (ip : ℚ))
  sgn ++ toString ip ++ "." ++ (if ds.isEmpty then "0" else String.mk ds)

/-- Python `str()` of a parameter value, as applied by `urlencode`. -/
def Value.render : Value → String
  | .str s => s
  | .rat q => ratRender q
  | .int n => toString n

/-- Bytes left unescaped by `urllib.parse.quote_plus`: ALPHA / DIGIT / `_.-~`. -/
def alwaysSafe (b : Nat) : Bool :=
  (48 ≤ b ∧ b ≤ 57) ∨ (65 ≤ b ∧ b ≤ 90) ∨ (97 ≤ b ∧ b ≤ 122) ∨ b = 95 ∨ b = 46 ∨ b = 45 ∨ b = 126

def hexCharUpper (n : Nat) : Char := if n < 10 then Char.ofNat (48 + n) else Char.ofNat (55 + n)

def quoteByte (b : Nat) : String :=
  if alwaysSafe b then String.mk [Char.ofNat b]
  else if b = 32 then "+"
  else String.mk [Char.ofNat 37, hexCharUpper (b / 16), hexCharUpper (b % 16)]

/-- Model of `urllib.parse.quote_plus`. -/
def quotePlus (s : String) : String := String.join ((utf8Bytes s).map quoteByte)

/-- Model of `urllib.parse.urlencode` on an (ordered) parameter list. -/
def urlencode (params : List (String × Value)) : String :=
  String.intercalate "&" (params.map fun p => quotePlus p.1 ++ "=" ++ quotePlus p.2.render)

/-! ## Rounding (Python `round(x, n)`: round half to even) -/

def roundHalfEven (x : ℚ) : ℤ :=
  let f := ⌊x⌋
  let r := x - (f : ℚ)
  if r < 1 / 2 then f
  else if 1 / 2 < r then f + 1
  else if f % 2 = 0 then f else f + 1

/-- Model of Python `round(x, n)` for a float/decimal value. -/
def roundTo (n : Nat) (x : ℚ) : ℚ := (roundHalfEven (x * 10 ^ n) : ℚ) / 10 ^ n

/-! ## config.py -/

def BASE_URL : String := "https://testnet.binance.vision"

/-- `os.getenv(key, default)` over an explicit environment. -/
def getenvD (env : List (String × String)) (k d : String) : String := ((env.lookup k).getD d)

def API_KEY (env : List (String × String)) : String :=
  getenvD env "BINANCE_API_KEY" "your_testnet_api_key"

def SECRET_KEY (env : List (String × String)) : String :=
  getenvD env "BINANCE_SECRET_KEY" "your_testnet_secret_key"

/-- `Config.validate_config`. -/
def validate_config (apiKey secretKey : String) : Except String Unit :=
  if apiKey = "your_testnet_api_key" ∨ secretKey = "your_testnet_secret_key" then
    .error "Please set your API credentials in .env file or config.py"
  else .ok ()

/-- `OrderCLI.__init__`: validates the configuration, then constructs the
client from the credentials.  No network call occurs in this constructor
(the model accordingly takes no transport argument); on failure the CLI
prints the initialization error and exits. -/
def OrderCLI_init (env : List (String × String)) : Except String (String × String) :=
  match validate_config (API_KEY env) (SECRET_KEY env) with
  | .error e => .error ("❌ Initialization error: " ++ e)
  | .ok _ => .ok (API_KEY env, SECRET_KEY env)

/-! ## binance_client.py : transport model and `_send_request` -/

/-- An HTTP response as seen through the `requests` library: final status,
reason phrase, final URL, raw body, redirect history, and the result of
`.json()` (`.error` when the body is malformed, carrying the parse message). -/
structure HttpResponse where
  status : Nat
  reason : String
  url : String
  body : String
  history : List Nat
  json : Except String (List (String × Value))

inductive TransportOutcome where
  | ok (resp : HttpResponse)
  | exn (msg : String)

/-- The transport: method, URL and transmitted parameter list determine the
outcome.  `exn m` models `requests.exceptions.RequestException` with
message `m` (DNS failure, timeout, connection reset, ...). -/
def Net : Type := String → String → List (String × Value) → TransportOutcome

/-- `requests.Response.raise_for_status`: the message of the `HTTPError`
raised on a 4xx/5xx status, `none` otherwise. -/
def raise_for_status (resp : HttpResponse) : Option String :=
  if 400 ≤ resp.status ∧ resp.status < 500 then
    some (toString resp.status ++ (" Client Error: " ++ resp.reason ++ " for url: " ++ resp.url))
  else if 500 ≤ resp.status ∧ resp.status < 600 then
    some (toString resp.status ++ (" Server Error: " ++ resp.reason ++ " for url: " ++ resp.url))
  else none

/-- `_generate_signature`: HMAC-SHA256 hex digest of the url-encoded
parameter list, keyed by the secret key. -/
def generate_signature (secret_key : String) (params : List (String × Value)) : String :=
  hmacSha256Hex secret_key (urlencode params)

/-- The `if signed:` block of `_send_request`: append the millisecond
timestamp, then attach the signature computed over the parameters as they
stand at that point (timestamp included, signature not yet present). -/
def signParams (secret_key : String) (params : List (String × Value)) (nowMs : ℤ) :
    List (String × Value) :=
  let withTs := params ++ [("timestamp", Value.int nowMs)]
  withTs ++ [("signature", Value.str (generate_signature secret_key withTs))]

/-- Status / body handling shared by both method branches of `_send_request`:
`raise_for_status` (its `HTTPError` is a `RequestException`, so the
`except requests.exceptions.RequestException` clause re-raises it as
`"Network error: ..."`), then `.json()` (a `ValueError` on malformed bodies,
re-raised as `"Invalid response from server: ..."`). -/
def handleResponse (resp : HttpResponse) : Except String (List (String × Value)) :=
  match raise_for_status resp with
  | some m => .error ("Network error: " ++ m)
  | none =>
    match resp.json with
    | .ok data => .ok data
    | .error e => .error ("Invalid response from server: " ++ e)

/-- The method dispatch of `_send_request`, applied to the parameter list
actually handed to the transport.  The POST branch checks
`response.history` and raises a plain `Exception` (caught by no `except`
clause) before any status handling; the GET branch has no such check.
An unsupported method raises `ValueError`, which the `except ValueError`
clause re-raises as `"Invalid response from server: ..."`. -/
def performCall (net : Net) (method url : String) (ps : List (String × Value)) :
    Except String (List (String × Value)) :=
  if method = "GET" then
    match net "GET" url ps with
    | .exn m => .error ("Network error: " ++ m)
    | .ok resp => handleResponse resp
  else if method = "POST" then
    match net "POST" url ps with
    | .exn m => .error ("Network error: " ++ m)
    | .ok resp =>
      if resp.history.isEmpty then handleResponse resp
      else .error ("Request redirected! Wrong URL or endpoint. Final URL: " ++ resp.url)
  else .error ("Invalid response from server: Unsupported HTTP method: " ++ method)

/-- `_send_request`. -/
def send_request (net : Net) (secret_key method endpoint : String)
    (params : List (String × Value)) (signed : Bool) (nowMs : ℤ) :
    Except String (List (String × Value)) :=
  performCall net method (BASE_URL ++ endpoint)
    (if signed then signParams secret_key params nowMs else params)

/-! ## binance_client.py : `place_order` -/

/-- The validation and parameter-preparation part of `place_order`, up to the
call to `_send_request`: the returned list is exactly the parameter list
handed to `_send_request`; a `ValueError` message otherwise. -/
def place_order_params (symbol side order_type : String) (quantity : ℚ) (price : Option ℚ) :
    Except String (List (String × Value)) :=
  if ¬(side = "BUY" ∨ side = "SELL") then
    .error "Side must be either 'BUY' or 'SELL'"
  else if ¬(order_type = "MARKET" ∨ order_type = "LIMIT") then
    .error "Order type must be either 'MARKET' or 'LIMIT'"
  else if order_type = "LIMIT" ∧ price = none then
    .error "Price is required for LIMIT orders"
  else if quantity ≤ 0 then
    .error "Quantity must be greater than 0"
  else
    let params : List (String × Value) :=
      [("symbol", .str (pyUpper symbol)), ("side", .str side), ("type", .str order_type),
       ("quantity", .rat (roundTo 8 quantity)), ("newOrderRespType", .str "ACK")]
    .ok (if order_type = "LIMIT" then
      params ++ [("timeInForce", .str "GTC"), ("price", .rat (roundTo 2 (price.getD 0)))]
    else params)

/-- `place_order`: validate and prepare parameters, then POST them signed to
`/api/v3/order`.  (The `try/except` around the send only logs and
re-raises, so it is semantically transparent.) -/
def place_order (net : Net) (secret_key : String) (nowMs : ℤ)
    (symbol side order_type : String) (quantity : ℚ) (price : Option ℚ) :
    Except String (List (String × Value)) :=
  match place_order_params symbol side order_type quantity price with
  | .error e => .error e
  | .ok ps => send_request net secret_key "POST" "/api/v3/order" ps true nowMs

/-! ## cli_handler.py : input validation -/

def isDig (c : Char) : Bool := 48 ≤ c.toNat ∧ c.toNat ≤ 57

def digitsVal (ds : List Char) : Nat := ds.foldl (fun a c => a * 10 + (c.toNat - 48)) 0

/-- The value `(-1)^neg * ip.fp * 10^e` of a parsed decimal numeral, built
with integer arithmetic and a single `mkRat`. -/
def buildDec (neg : Bool) (ip fp : List Char) (e : ℤ) : ℚ :=
  let n : ℤ := (digitsVal ip * 10 ^ fp.length + digitsVal fp : ℕ)
  let v : ℚ :=
    if 0 ≤ e then mkRat (n * 10 ^ e.toNat) (10 ^ fp.length)
    else mkRat n (10 ^ fp.length * 10 ^ (-e).toNat)
  if neg then -v else v

/-- Model of Python `decimal.Decimal(s)` (and of `float(s)`) on finite
numerals: optional sign, digits with an optional point (at least one digit),
optional exponent.  (`NaN`/`Infinity` forms and surrounding whitespace are
not modelled.) -/
def parseDecimal (s : String) : Option ℚ :=
  let sp : Bool × List Char :=
    match s.data with
    | '+' :: t => (false, t)
    | '-' :: t => (true, t)
    | t => (false, t)
  let ip := sp.2.takeWhile isDig
  let rest := sp.2.dropWhile isDig
  let mid : Option (List Char × List Char) :=
    match rest with
    | '.' :: r2 =>
      if ip.isEmpty ∧ (r2.takeWhile isDig).isEmpty then none
      else some (r2.takeWhile isDig, r2.dropWhile isDig)
    | _ => if ip.isEmpty then none else some ([], rest)
  match mid with
  | none => none
  | some (fp, r3) =>
    match r3 with
    | [] => some (buildDec sp.1 ip fp 0)
    | e :: t =>
      if e = 'e' ∨ e = 'E' then
        let et : Bool × List Char :=
          match t with
          | '+' :: u => (false, u)
          | '-' :: u => (true, u)
          | u => (false, u)
        let ed := et.2.takeWhile isDig
        let r := et.2.dropWhile isDig
        if ed.isEmpty ∨ ¬r.isEmpty then none
        else
          some (buildDec sp.1 ip fp
            (if et.1 then -(digitsVal ed : ℤ) else (digitsVal ed : ℤ)))
      else none

/-- Symbol check of `validate_inputs` (`if not symbol or len(symbol) < 6`). -/
def vSymbolErrs (symbol : String) : List String :=
  if symbol = "" ∨ symbol.length < 6 then ["Symbol must be at least 6 characters (e.g., BTCUSDT)"]
  else []

/-- Side check of `validate_inputs`. -/
def vSideErrs (side : String) : List String :=
  if ¬(pyUpper side = "BUY" ∨ pyUpper side = "SELL") then ["Side must be either 'BUY' or 'SELL'"]
  else []

/-- Order-type check of `validate_inputs`. -/
def vTypeErrs (order_type : String) : List String :=
  if ¬(pyUpper order_type = "MARKET" ∨ pyUpper order_type = "LIMIT") then
    ["Order type must be either 'MARKET' or 'LIMIT'"]
  else []

/-- Quantity check of `validate_inputs` (`Decimal(quantity)`, then `qty <= 0`). -/
def vQtyErrs (quantity : String) : List String :=
  match parseDecimal quantity with
  | some q => if q ≤ 0 then ["Quantity must be greater than 0"] else []
  | none => ["Quantity must be a valid number"]

/-- Price check of `validate_inputs`: only for LIMIT orders; `if not price`
covers both the `None` default and the empty string; returns the collected
errors together with the parsed `price_val`. -/
def vPriceStep (order_type : String) (price : Option String) : List String × Option ℚ :=
  if pyUpper order_type = "LIMIT" then
    match price with
    | none => (["Price is required for LIMIT orders"], none)
    | some p =>
      if p = "" then (["Price is required for LIMIT orders"], none)
      else
        match parseDecimal p with
        | some v => ((if v ≤ 0 then ["Price must be greater than 0"] else []), some v)
        | none => (["Price must be a valid number"], none)
  else ([], none)

/-- `OrderCLI.validate_inputs`: collects the error messages of all five
checks in order, raises their `"\n"`-join if any, and otherwise returns the
parsed tuple (the final component models
`float(price_val) if price_val else None`). -/
def validate_inputs (symbol side order_type quantity : String) (price : Option String) :
    Except String (String × String × String × ℚ × Option ℚ) :=
  let pp := vPriceStep order_type price
  let errors :=
    vSymbolErrs symbol ++ vSideErrs side ++ vTypeErrs order_type ++ vQtyErrs quantity ++ pp.1
  if errors = [] then
    .ok (pyUpper symbol, pyUpper side, pyUpper order_type, (parseDecimal quantity).getD 0,
      match pp.2 with
      | some v => if v = 0 then none else some v
      | none => none)
  else .error (String.intercalate "\n" errors)

/-! ## cli_handler.py : response formatting -/

/-- Substring test used to state the containment claims. -/
def startsList : List Char → List Char → Bool
  | [], _ => true
  | _ :: _, [] => false
  | c :: cs, d :: ds => c = d && startsList cs ds

def subAt (n : List Char) : List Char → Bool
  | [] => n.isEmpty
  | c :: t => startsList n (c :: t) || subAt n t

/-- `containsSubstr needle hay`: `needle` occurs in `hay`. -/
def containsSubstr (needle hay : String) : Bool := subAt needle.data hay.data

/-- `response.get(key, default)` rendered into an f-string. -/
def pyGet (r : List (String × Value)) (k d : String) : String :=
  match r.lookup k with
  | some v => v.render
  | none => d

/-- Python `float()` applied to a response value; `none` models the
`ValueError` raised on a non-numeric string. -/
def pyFloat (v : Value) : Option ℚ :=
  match v with
  | .str s => parseDecimal s
  | .rat q => some q
  | .int n => some (n : ℚ)

def eqLine : String := String.mk (List.replicate 50 '=')

/-- The success-path body of `format_order_response` (everything after the
embedded error-code check).  The `.error` case models the `ValueError` that
`float(response['avgPrice'])` raises on a non-numeric value. -/
def format_success (response : List (String × Value)) : Except String String :=
  let output_lines :=
    [eqLine, "✅ ORDER PLACED SUCCESSFULLY", eqLine,
     "Order ID: " ++ pyGet response "orderId" "N/A",
     "Symbol: " ++ pyGet response "symbol" "N/A",
     "Side: " ++ pyGet response "side" "N/A",
     "Type: " ++ pyGet response "type" "N/A",
     "Status: " ++ pyGet response "status" "N/A",
     "Quantity: " ++ pyGet response "origQty" "N/A",
     "Executed Quantity: " ++ pyGet response "executedQty" "0",
     "Price: " ++ pyGet response "price" "N/A"]
  match response.lookup "avgPrice" with
  | some v =>
    match pyFloat v with
    | some x =>
      let output_lines :=
        if 0 < x then output_lines ++ ["Average Price: " ++ v.render] else output_lines
      .ok (String.intercalate "\n"
        (output_lines ++ ["Time: " ++ pyGet response "updateTime" "N/A", eqLine]))
    | none => .error ("could not convert string to float: " ++ v.render)
  | none =>
    .ok (String.intercalate "\n"
      (output_lines ++ ["Time: " ++ pyGet response "updateTime" "N/A", eqLine]))

/-- `OrderCLI.format_order_response`: a non-200 `code` embedded in the
response body is rendered as a display-level error; otherwise the summary
block is produced. -/
def format_order_response (response : List (String × Value)) : Except String String :=
  match response.lookup "code" with
  | some c =>
    if c ≠ Value.int 200 then .ok ("❌ Error: " ++ pyGet response "msg" "Unknown error")
    else format_success response
  | none => format_success response

/-! ## Claim-side definitions

The following two definitions are phrased from the specification's words, to
be compared with the code-side definitions above. -/

/-- Phrased from the spec (claim C6): the messages of all violated
constraints, one per constraint, in the order the constraints are listed:
symbol length ≥ 6, side ∈ {BUY, SELL}, order type ∈ {MARKET, LIMIT},
quantity a valid positive number, price a valid positive number when the
order type is LIMIT. -/
def claimedViolations (symbol side order_type quantity : String) (price : Option String) :
    List String :=
  (if 6 ≤ symbol.length then [] else ["Symbol must be at least 6 characters (e.g., BTCUSDT)"]) ++
  (if pyUpper side = "BUY" ∨ pyUpper side = "SELL" then []
   else ["Side must be either 'BUY' or 'SELL'"]) ++
  (if pyUpper order_type = "MARKET" ∨ pyUpper order_type = "LIMIT" then []
   else ["Order type must be either 'MARKET' or 'LIMIT'"]) ++
  (match parseDecimal quantity with
   | some q => if 0 < q then [] else ["Quantity must be greater than 0"]
   | none => ["Quantity must be a valid number"]) ++
  (if pyUpper order_type = "LIMIT" then
    match price with
    | none => ["Price is required for LIMIT orders"]
    | some p =>
      if p = "" then ["Price is required for LIMIT orders"]
      else
        match parseDecimal p with
        | some v => if 0 < v then [] else ["Price must be greater than 0"]
        | none => ["Price must be a valid number"]
   else [])

/-- Phrased from the amended claim C1: the message of the first violated
constraint, in the order the client checks them (side, order type, price
present for LIMIT, quantity positive); `none` when validation passes. -/
def firstViolation (side order_type : String) (quantity : ℚ) (price : Option ℚ) : Option String :=
  if ¬(side = "BUY" ∨ side = "SELL") then some "Side must be either 'BUY' or 'SELL'"
  else if ¬(order_type = "MARKET" ∨ order_type = "LIMIT") then
    some "Order type must be either 'MARKET' or 'LIMIT'"
  else if order_type = "LIMIT" ∧ price = none then some "Price is required for LIMIT orders"
  else if quantity ≤ 0 then some "Quantity must be greater than 0"
  else none

/-! ## Helper lemmas -/

lemma startsList_self_append (l r : List Char) : startsList l (l ++ r) = true := by
  induction l with
  | nil => simp [startsList]
  | cons c cs ih => simp [startsList, ih]

lemma subAt_self_append (n r : List Char) : subAt n (n ++ r) = true := by
  cases n with
  | nil =>
    cases r with
    | nil => simp [subAt]
    | cons c t => simp [subAt, startsList]
  | cons c cs =>
    simp only [List.cons_append, subAt, Bool.or_eq_true]
    exact Or.inl (startsList_self_append (c :: cs) r)

/-- A string occurs in any string it is a left factor of. -/
lemma containsSubstr_self_append (a b : String) : containsSubstr a (a ++ b) = true := by
  simpa [containsSubstr, String.data_append] using subAt_self_append a.data b.data

lemma subAt_cons (n : List Char) (c : Char) (t : List Char) (h : subAt n t = true) :
    subAt n (c :: t) = true := by
  simp [subAt, h]

lemma subAt_append_of_subAt (n pre rest : List Char) (h : subAt n rest = true) :
    subAt n (pre ++ rest) = true := by
  induction pre with
  | nil => simpa using h
  | cons c cs ih => exact subAt_cons n c (cs ++ rest) ih

/-- A string occurs in any string it is a right factor of. -/
lemma containsSubstr_append_self (a b : String) : containsSubstr a (b ++ a) = true := by
  have h0 : subAt a.data (a.data ++ []) = true := subAt_self_append a.data []
  rw [List.append_nil] at h0
  simpa [containsSubstr, String.data_append] using subAt_append_of_subAt a.data b.data a.data h0

/-- A validation error in `place_order` surfaces unchanged for every
transport: no network call influences the result. -/
lemma place_order_of_params_error {symbol side order_type : String} {quantity : ℚ}
    {price : Option ℚ} {e : String}
    (h : place_order_params symbol side order_type quantity price = .error e)
    (net : Net) (secret_key : String) (nowMs : ℤ) :
    place_order net secret_key nowMs symbol side order_type quantity price = .error e := by
  simp [place_order, h]

/-! ## Claim theorems -/

/-- C4: for every signed request, the client first appends the millisecond
timestamp, then attaches a signature equal to the HMAC-SHA256 hex digest,
keyed by the secret key, of the URL-encoding of exactly that parameter set
(timestamp included, signature excluded); the parameters handed to the
transport are exactly the signed set plus the signature. -/
theorem signed_request_signature_covers_sent_set (secret_key : String)
    (params : List (String × Value)) (nowMs : ℤ) (net : Net) (method endpoint : String) :
    signParams secret_key params nowMs =
      (params ++ [("timestamp", Value.int nowMs)]) ++
        [("signature", Value.str (hmacSha256Hex secret_key
          (urlencode (params ++ [("timestamp", Value.int nowMs)]))))] ∧
    send_request net secret_key method endpoint params true nowMs =
      performCall net method (BASE_URL ++ endpoint) (signParams secret_key params nowMs) ∧
    (signParams secret_key params nowMs).map Prod.fst =
      params.map Prod.fst ++ ["timestamp", "signature"] := by
  refine ⟨rfl, rfl, ?_⟩
  simp [signParams]

/-- C10: a POST whose response arrived through redirects (non-empty history)
raises an error naming the final URL, before any status handling — in
particular even when the final status is 2xx — while a GET with the very
same response is not subject to the redirect check. -/
theorem post_redirect_rejected (resp : HttpResponse) (secret_key endpoint : String)
    (params : List (String × Value)) (signed : Bool) (nowMs : ℤ)
    (hh : resp.history ≠ []) :
    send_request (fun _ _ _ => .ok resp) secret_key "POST" endpoint params signed nowMs =
      .error ("Request redirected! Wrong URL or endpoint. Final URL: " ++ resp.url) ∧
    containsSubstr resp.url
      ("Request redirected! Wrong URL or endpoint. Final URL: " ++ resp.url) = true ∧
    ∀ data, resp.json = .ok data → raise_for_status resp = none →
      send_request (fun _ _ _ => .ok resp) secret_key "GET" endpoint params signed nowMs =
        .ok data := by
  refine ⟨?_, ?_, ?_⟩
  · simp [send_request, performCall, List.isEmpty_iff, hh]
  · exact containsSubstr_append_self resp.url "Request redirected! Wrong URL or endpoint. Final URL: "
  · intro data hj hs
    simp [send_request, performCall, handleResponse, hj, hs]

/-- C10 witness: a concrete redirected POST with final status 200 is
rejected with the final URL in the message, and the same response on GET
succeeds. -/
theorem post_redirect_rejected_witness :
    send_request (fun _ _ _ => .ok ⟨200, "OK", "https://example.com/x", "", [302],
        .ok [("ok", Value.int 1)]⟩) "k" "POST" "/api/v3/order" [] true 0 =
      .error "Request redirected! Wrong URL or endpoint. Final URL: https://example.com/x" ∧
    send_request (fun _ _ _ => .ok ⟨200, "OK", "https://example.com/x", "", [302],
        .ok [("ok", Value.int 1)]⟩) "k" "GET" "/api/v3/order" [] true 0 =
      .ok [("ok", Value.int 1)] :=
  ⟨(post_redirect_rejected ⟨200, "OK", "https://example.com/x", "", [302],
      .ok [("ok", Value.int 1)]⟩ "k" "/api/v3/order" [] true 0 (by simp)).1,
   (post_redirect_rejected ⟨200, "OK", "https://example.com/x", "", [302],
      .ok [("ok", Value.int 1)]⟩ "k" "/api/v3/order" [] true 0 (by simp)).2.2
     [("ok", Value.int 1)] rfl rfl⟩

/-- C2 counterexample: a simulated 400 response makes `send` fail with the
same `"Network error: ..."` exception form that a transport failure
produces — there is no distinct ApiError kind — and the response body is
not carried in the message; moreover a 304 (non-2xx) response is not
treated as an error at all. -/
theorem send_no_distinct_api_error :
    send_request (fun _ _ _ => .ok ⟨400, "Bad Request",
        "https://testnet.binance.vision/api/v3/order", "insufficient balance", [],
        .error "Expecting value"⟩) "k" "GET" "/api/v3/order" [] false 0 =
      .error
        "Network error: 400 Client Error: Bad Request for url: https://testnet.binance.vision/api/v3/order" ∧
    send_request (fun _ _ _ => .exn "Connection timed out") "k" "GET" "/api/v3/order" [] false 0 =
      .error "Network error: Connection timed out" ∧
    containsSubstr "insufficient balance"
      "Network error: 400 Client Error: Bad Request for url: https://testnet.binance.vision/api/v3/order" =
      false ∧
    send_request (fun _ _ _ => .ok ⟨304, "Not Modified", "u", "", [], .ok [("ok", Value.int 1)]⟩)
      "k" "GET" "/x" [] false 0 = .ok [("ok", Value.int 1)] := by
  refine ⟨rfl, rfl, by decide, rfl⟩

/-- C2 (amended): on a 4xx/5xx HTTP status `send` fails with an exception
whose message is the `"Network error: ..."` form shared with transport
failures and contains the status code (`raise_for_status` fires exactly on
4xx/5xx; other non-2xx statuses are not treated as errors); the response
body does not appear in the message. -/
theorem http_error_wrapped_as_network_error (resp : HttpResponse)
    (secret_key endpoint : String) (params : List (String × Value)) (signed : Bool)
    (nowMs : ℤ) (m : String) (hm : raise_for_status resp = some m) :
    send_request (fun _ _ _ => .ok resp) secret_key "GET" endpoint params signed nowMs =
      .error ("Network error: " ++ m) ∧
    containsSubstr (toString resp.status) m = true ∧
    ((raise_for_status resp).isSome ↔ 400 ≤ resp.status ∧ resp.status < 600) := by
  refine ⟨?_, ?_, ?_⟩
  · simp [send_request, performCall, handleResponse, hm]
  · unfold raise_for_status at hm
    split at hm
    · cases hm
      exact containsSubstr_self_append (toString resp.status)
        (" Client Error: " ++ resp.reason ++ " for url: " ++ resp.url)
    · split at hm
      · cases hm
        exact containsSubstr_self_append (toString resp.status)
          (" Server Error: " ++ resp.reason ++ " for url: " ++ resp.url)
      · cases hm
  · unfold raise_for_status
    by_cases h1 : 400 ≤ resp.status ∧ resp.status < 500
    · rw [if_pos h1]
      simp only [Option.isSome_some, true_iff]
      exact ⟨h1.1, by omega⟩
    · by_cases h2 : 500 ≤ resp.status ∧ resp.status < 600
      · rw [if_neg h1, if_pos h2]
        simp only [Option.isSome_some, true_iff]
        exact ⟨by omega, h2.2⟩
      · rw [if_neg h1, if_neg h2]
        simp only [Option.isSome_none, Bool.false_eq_true, false_iff]
        intro hc
        rcases Nat.lt_or_ge resp.status 500 with h | h
        · exact h1 ⟨hc.1, h⟩
        · exact h2 ⟨h, hc.2⟩

/-- C1 counterexample: with both an invalid side and an invalid order type
(and a non-positive quantity), `place_order` reports only the side
violation: the other violated constraints do not appear in the failure. -/
theorem place_order_reports_only_first_violation :
    place_order (fun _ _ _ => .exn "unreachable") "k" 0 "BTCUSDT" "FOO" "BAR" (-1) none =
      .error "Side must be either 'BUY' or 'SELL'" ∧
    containsSubstr "Order type must be either 'MARKET' or 'LIMIT'"
      "Side must be either 'BUY' or 'SELL'" = false ∧
    containsSubstr "Quantity must be greater than 0"
      "Side must be either 'BUY' or 'SELL'" = false :=
  ⟨rfl, by decide, by decide⟩

/-- C1 (amended): `place_order` fails fast on invalid parameters — the
validation error surfaces for every transport, so no network call is made —
but it reports only the first violated constraint in check order (side,
order type, price required for LIMIT, quantity positive), not all of them. -/
theorem place_order_fails_fast_with_first_violation (symbol side order_type : String)
    (quantity : ℚ) (price : Option ℚ) (m : String)
    (h : firstViolation side order_type quantity price = some m) :
    place_order_params symbol side order_type quantity price = .error m ∧
    ∀ net secret_key nowMs,
      place_order net secret_key nowMs symbol side order_type quantity price = .error m := by
  have hp : place_order_params symbol side order_type quantity price = .error m := by
    unfold firstViolation at h
    split at h
    · cases h
      rename_i h1
      simp [place_order_params, h1]
    · split at h
      · cases h
        rename_i h1 h2
        simp [place_order_params, h1, h2]
      · split at h
        · cases h
          rename_i h1 h2 h3
          simp [place_order_params, h1, h2, h3]
        · split at h
          · cases h
            rename_i h1 h2 h3 h4
            simp [place_order_params, h1, h2, h3, h4]
          · cases h
  exact ⟨hp, fun net secret_key nowMs => place_order_of_params_error hp net secret_key nowMs⟩

/-- C1 witness: the amended theorem at a concrete invalid side. -/
theorem place_order_fails_fast_with_first_violation_witness :
    place_order_params "BTCUSDT" "FOO" "MARKET" 1 none =
      .error "Side must be either 'BUY' or 'SELL'" ∧
    place_order (fun _ _ _ => .exn "e") "kk" 5 "BTCUSDT" "FOO" "MARKET" 1 none =
      .error "Side must be either 'BUY' or 'SELL'" :=
  ⟨(place_order_fails_fast_with_first_violation "BTCUSDT" "FOO" "MARKET" 1 none
      "Side must be either 'BUY' or 'SELL'" (by decide)).1,
   (place_order_fails_fast_with_first_violation "BTCUSDT" "FOO" "MARKET" 1 none
      "Side must be either 'BUY' or 'SELL'" (by decide)).2 (fun _ _ _ => .exn "e") "kk" 5⟩

/-- C3 counterexample: a LIMIT order with a negative price passes
`place_order` validation — the parameter set (with the rounded negative
price) is prepared and, with a transport that answers, the order goes out
and the network response is returned. -/
theorem place_order_accepts_nonpositive_price :
    place_order_params "BTCUSDT" "BUY" "LIMIT" 1 (some (-5)) =
      .ok [("symbol", Value.str "BTCUSDT"), ("side", Value.str "BUY"),
           ("type", Value.str "LIMIT"), ("quantity", Value.rat (roundTo 8 1)),
           ("newOrderRespType", Value.str "ACK"), ("timeInForce", Value.str "GTC"),
           ("price", Value.rat (roundTo 2 (-5)))] ∧
    place_order (fun _ _ _ => .ok ⟨200, "OK", "u", "", [], .ok [("orderId", Value.int 1)]⟩)
      "k" 0 "BTCUSDT" "BUY" "LIMIT" 1 (some (-5)) = .ok [("orderId", Value.int 1)] :=
  ⟨rfl, rfl⟩

/-- C3 (amended): `place_order` rejects every quantity ≤ 0 without issuing a
network call, but does not reject a non-positive price: a LIMIT order with
price −1 passes its validation, and only the CLI's price check
(`validate_inputs`) rejects a non-positive price. -/
theorem place_order_rejects_nonpositive_quantity (symbol side order_type : String)
    (quantity : ℚ) (price : Option ℚ) (hq : quantity ≤ 0) :
    (place_order_params symbol side order_type quantity price).isOk = false ∧
    (∀ net secret_key nowMs,
      (place_order net secret_key nowMs symbol side order_type quantity price).isOk = false) ∧
    (place_order_params "ETHUSDT" "SELL" "LIMIT" 1 (some (-1))).isOk = true ∧
    (vPriceStep "LIMIT" (some "-5")).1 = ["Price must be greater than 0"] := by
  have he : ∃ e, place_order_params symbol side order_type quantity price = .error e := by
    by_cases h1 : side = "BUY" ∨ side = "SELL"
    · by_cases h2 : order_type = "MARKET" ∨ order_type = "LIMIT"
      · by_cases h3 : order_type = "LIMIT" ∧ price = none
        · exact ⟨"Price is required for LIMIT orders", by simp [place_order_params, h1, h2, h3]⟩
        · exact ⟨"Quantity must be greater than 0",
            by simp [place_order_params, h1, h2, h3, hq]⟩
      · exact ⟨"Order type must be either 'MARKET' or 'LIMIT'",
          by simp [place_order_params, h1, h2]⟩
    · exact ⟨"Side must be either 'BUY' or 'SELL'", by simp [place_order_params, h1]⟩
  obtain ⟨e, he⟩ := he
  refine ⟨by simp [he, Except.isOk, Except.toBool], fun net secret_key nowMs => ?_,
    by decide, by decide⟩
  rw [place_order_of_params_error he net secret_key nowMs]
  rfl

/-- C3 witness: the amended theorem at a concrete non-positive quantity. -/
theorem place_order_rejects_nonpositive_quantity_witness :
    (place_order_params "BTCUSDT" "BUY" "MARKET" (-3) none).isOk = false ∧
    (place_order (fun _ _ _ => .exn "e") "k" 7 "BTCUSDT" "BUY" "MARKET" (-3) none).isOk =
      false :=
  ⟨(place_order_rejects_nonpositive_quantity "BTCUSDT" "BUY" "MARKET" (-3) none
      (by norm_num)).1,
   (place_order_rejects_nonpositive_quantity "BTCUSDT" "BUY" "MARKET" (-3) none
      (by norm_num)).2.1 (fun _ _ _ => .exn "e") "k" 7⟩

/-- C5: a LIMIT order without a price always fails `place_order` validation
— for every transport the result is the validation error, so no request is
sent — while a MARKET order with a supplied price passes validation and the
transmitted parameter set contains no `price` key. -/
theorem limit_without_price_fails_market_price_ignored (symbol side secret_key : String)
    (quantity p : ℚ) (nowMs : ℤ) (net : Net) :
    (place_order_params symbol side "LIMIT" quantity none).isOk = false ∧
    (place_order net secret_key nowMs symbol side "LIMIT" quantity none).isOk = false ∧
    ((side = "BUY" ∨ side = "SELL") → 0 < quantity →
      place_order_params symbol side "MARKET" quantity (some p) =
        .ok [("symbol", .str (pyUpper symbol)), ("side", .str side), ("type", .str "MARKET"),
             ("quantity", .rat (roundTo 8 quantity)), ("newOrderRespType", .str "ACK")] ∧
      List.lookup "price"
        [("symbol", Value.str (pyUpper symbol)), ("side", Value.str side),
         ("type", Value.str "MARKET"), ("quantity", Value.rat (roundTo 8 quantity)),
         ("newOrderRespType", Value.str "ACK")] = none) := by
  have he : ∃ e, place_order_params symbol side "LIMIT" quantity none = .error e := by
    by_cases h1 : side = "BUY" ∨ side = "SELL"
    · exact ⟨"Price is required for LIMIT orders", by simp [place_order_params, h1]⟩
    · exact ⟨"Side must be either 'BUY' or 'SELL'", by simp [place_order_params, h1]⟩
  obtain ⟨e, he⟩ := he
  refine ⟨by simp [he, Except.isOk, Except.toBool], ?_, ?_⟩
  · rw [place_order_of_params_error he net secret_key nowMs]
    rfl
  · intro hs hq
    constructor
    · simp [place_order_params, hs, not_le.mpr hq]
    · simp [List.lookup]

/-- C5 witness: concrete LIMIT order without price, concrete MARKET order
with a price. -/
theorem limit_without_price_fails_market_price_ignored_witness :
    (place_order (fun _ _ _ => .exn "e") "k" 3 "BTCUSDT" "BUY" "LIMIT" 1 none).isOk = false ∧
    place_order_params "BTCUSDT" "BUY" "MARKET" 1 (some 2) =
      .ok [("symbol", .str (pyUpper "BTCUSDT")), ("side", .str "BUY"), ("type", .str "MARKET"),
           ("quantity", .rat (roundTo 8 1)), ("newOrderRespType", .str "ACK")] :=
  ⟨(limit_without_price_fails_market_price_ignored "BTCUSDT" "BUY" "k" 1 2 3
      (fun _ _ _ => .exn "e")).2.1,
   ((limit_without_price_fails_market_price_ignored "BTCUSDT" "BUY" "k" 1 2 3
      (fun _ _ _ => .exn "e")).2.2 (Or.inl rfl) one_pos).1⟩

/-- C7: every parameter set accepted by `place_order` carries the symbol
uppercased, the quantity rounded to 8 decimal places, and — for LIMIT
orders — the price rounded to 2 decimal places. -/
theorem accepted_order_params_normalized (symbol side order_type : String) (quantity : ℚ)
    (price : Option ℚ) (ps : List (String × Value))
    (h : place_order_params symbol side order_type quantity price = .ok ps) :
    ps.lookup "symbol" = some (.str (pyUpper symbol)) ∧
    ps.lookup "quantity" = some (.rat (roundTo 8 quantity)) ∧
    (order_type = "LIMIT" → ∀ p, price = some p →
      ps.lookup "price" = some (.rat (roundTo 2 p))) := by
  unfold place_order_params at h
  split at h
  · exact Except.noConfusion h
  · split at h
    · exact Except.noConfusion h
    · split at h
      · exact Except.noConfusion h
      · split at h
        · exact Except.noConfusion h
        · injection h with hps
          subst hps
          by_cases hot : order_type = "LIMIT"
          · rw [if_pos hot]
            refine ⟨by simp [List.lookup], by simp [List.lookup], ?_⟩
            intro _ p hp
            simp [List.lookup, hp]
          · rw [if_neg hot]
            exact ⟨by simp [List.lookup], by simp [List.lookup], fun h' => absurd h' hot⟩

/-- C7 witness: a concrete accepted LIMIT order. -/
theorem accepted_order_params_normalized_witness :
    List.lookup "symbol"
      [("symbol", Value.str (pyUpper "btcusdt")), ("side", Value.str "BUY"),
       ("type", Value.str "LIMIT"), ("quantity", Value.rat (roundTo 8 1)),
       ("newOrderRespType", Value.str "ACK"), ("timeInForce", Value.str "GTC"),
       ("price", Value.rat (roundTo 2 2))] = some (.str (pyUpper "btcusdt")) ∧
    List.lookup "quantity"
      [("symbol", Value.str (pyUpper "btcusdt")), ("side", Value.str "BUY"),
       ("type", Value.str "LIMIT"), ("quantity", Value.rat (roundTo 8 1)),
       ("newOrderRespType", Value.str "ACK"), ("timeInForce", Value.str "GTC"),
       ("price", Value.rat (roundTo 2 2))] = some (.rat (roundTo 8 1)) :=
  ⟨(accepted_order_params_normalized "btcusdt" "BUY" "LIMIT" 1 (some 2) _ rfl).1,
   (accepted_order_params_normalized "btcusdt" "BUY" "LIMIT" 1 (some 2) _ rfl).2.1⟩

/-- C8: if a credential variable is unset or holds a known placeholder
value, configuration validation fails, and `OrderCLI` initialization fails
with that configuration error — by construction before any network access
(the constructor model involves no transport). -/
theorem missing_or_placeholder_credentials_fail_startup (env : List (String × String))
    (h : env.lookup "BINANCE_API_KEY" = none ∨
         env.lookup "BINANCE_API_KEY" = some "your_testnet_api_key" ∨
         env.lookup "BINANCE_SECRET_KEY" = none ∨
         env.lookup "BINANCE_SECRET_KEY" = some "your_testnet_secret_key") :
    validate_config (API_KEY env) (SECRET_KEY env) =
      .error "Please set your API credentials in .env file or config.py" ∧
    OrderCLI_init env =
      .error "❌ Initialization error: Please set your API credentials in .env file or config.py" := by
  have hcond : API_KEY env = "your_testnet_api_key" ∨
      SECRET_KEY env = "your_testnet_secret_key" := by
    rcases h with h | h | h | h
    · exact Or.inl (by simp [API_KEY, getenvD, h])
    · exact Or.inl (by simp [API_KEY, getenvD, h])
    · exact Or.inr (by simp [SECRET_KEY, getenvD, h])
    · exact Or.inr (by simp [SECRET_KEY, getenvD, h])
  have hv : validate_config (API_KEY env) (SECRET_KEY env) =
      .error "Please set your API credentials in .env file or config.py" := by
    unfold validate_config
    rw [if_pos hcond]
  exact ⟨hv, by simp [OrderCLI_init, hv]⟩

/-- C8 witness: the empty environment (both variables unset). -/
theorem missing_or_placeholder_credentials_fail_startup_witness :
    validate_config (API_KEY []) (SECRET_KEY []) =
      .error "Please set your API credentials in .env file or config.py" ∧
    OrderCLI_init [] =
      .error "❌ Initialization error: Please set your API credentials in .env file or config.py" :=
  missing_or_placeholder_credentials_fail_startup [] (Or.inl rfl)

set_option maxRecDepth 100000 in
/-- C9: formatting the reference response mapping yields a summary block
containing the literal value of each field. -/
theorem response_summary_contains_field_values :
    (match format_order_response
        [("orderId", Value.int 123), ("symbol", Value.str "BTCUSDT"), ("side", Value.str "BUY"),
         ("type", Value.str "MARKET"), ("status", Value.str "FILLED"),
         ("origQty", Value.str "0.001"), ("executedQty", Value.str "0.001"),
         ("price", Value.str "0"), ("updateTime", Value.int 1234567890)] with
      | Except.ok out =>
        (["123", "BTCUSDT", "BUY", "MARKET", "FILLED", "0.001", "0.001", "0",
          "1234567890"].all fun v => containsSubstr v out)
      | Except.error _ => false) = true := by
  decide

lemma vSymbolErrs_eq (s : String) :
    (if 6 ≤ s.length then ([] : List String)
     else ["Symbol must be at least 6 characters (e.g., BTCUSDT)"]) = vSymbolErrs s := by
  unfold vSymbolErrs
  by_cases h : 6 ≤ s.length
  · rw [if_pos h, if_neg]
    rintro (rfl | h2)
    · exact absurd h (by decide)
    · omega
  · rw [if_neg h, if_pos (Or.inr (by omega))]

lemma vSideErrs_eq (side : String) :
    (if pyUpper side = "BUY" ∨ pyUpper side = "SELL" then ([] : List String)
     else ["Side must be either 'BUY' or 'SELL'"]) = vSideErrs side := by
  unfold vSideErrs
  by_cases h : pyUpper side = "BUY" ∨ pyUpper side = "SELL"
  · rw [if_pos h, if_neg (not_not_intro h)]
  · rw [if_neg h, if_pos h]

lemma vTypeErrs_eq (order_type : String) :
    (if pyUpper order_type = "MARKET" ∨ pyUpper order_type = "LIMIT" then ([] : List String)
     else ["Order type must be either 'MARKET' or 'LIMIT'"]) = vTypeErrs order_type := by
  unfold vTypeErrs
  by_cases h : pyUpper order_type = "MARKET" ∨ pyUpper order_type = "LIMIT"
  · rw [if_pos h, if_neg (not_not_intro h)]
  · rw [if_neg h, if_pos h]

lemma vQtyErrs_eq (quantity : String) :
    (match parseDecimal quantity with
     | some q => if 0 < q then [] else ["Quantity must be greater than 0"]
     | none => ["Quantity must be a valid number"]) = vQtyErrs quantity := by
  unfold vQtyErrs
  cases parseDecimal quantity with
  | none => rfl
  | some v =>
    by_cases h : 0 < v
    · simp [h, not_le.mpr h]
    · simp [h, not_lt.mp h]

lemma vPriceStep_eq (order_type : String) (price : Option String) :
    (if pyUpper order_type = "LIMIT" then
      match price with
      | none => ["Price is required for LIMIT orders"]
      | some p =>
        if p = "" then ["Price is required for LIMIT orders"]
        else
          match parseDecimal p with
          | some v => if 0 < v then [] else ["Price must be greater than 0"]
          | none => ["Price must be a valid number"]
     else []) = (vPriceStep order_type price).1 := by
  by_cases hot : pyUpper order_type = "LIMIT"
  · simp only [vPriceStep, if_pos hot]
    cases price with
    | none => rfl
    | some p =>
      by_cases hp : p = ""
      · simp only [if_pos hp]
      · simp only [if_neg hp]
        cases hpd : parseDecimal p with
        | none => rfl
        | some v =>
          by_cases hv : 0 < v
          · simp [hv, not_le.mpr hv]
          · simp [hv, not_lt.mp hv]
  · simp only [vPriceStep, if_neg hot]

/-- The claim-side violation list coincides with the error list the code
collects. -/
lemma claimedViolations_eq (symbol side order_type quantity : String) (price : Option String) :
    claimedViolations symbol side order_type quantity price =
      vSymbolErrs symbol ++ vSideErrs side ++ vTypeErrs order_type ++ vQtyErrs quantity ++
        (vPriceStep order_type price).1 := by
  unfold claimedViolations
  rw [vSymbolErrs_eq, vSideErrs_eq, vTypeErrs_eq, vQtyErrs_eq, vPriceStep_eq]

/-- C6: CLI validation evaluates all five constraints; when any are
violated it reports exactly the messages of all violated constraints,
joined into one message, and otherwise it succeeds. -/
theorem validate_inputs_reports_all_violations (symbol side order_type quantity : String)
    (price : Option String) :
    (claimedViolations symbol side order_type quantity price ≠ [] →
      validate_inputs symbol side order_type quantity price =
        .error (String.intercalate "\n"
          (claimedViolations symbol side order_type quantity price))) ∧
    (claimedViolations symbol side order_type quantity price = [] →
      ∃ t, validate_inputs symbol side order_type quantity price = .ok t) := by
  have key := claimedViolations_eq symbol side order_type quantity price
  constructor
  · intro h
    rw [key] at h
    rw [key]
    simp only [validate_inputs]
    rw [if_neg h]
  · intro h
    rw [key] at h
    refine ⟨(pyUpper symbol, pyUpper side, pyUpper order_type, (parseDecimal quantity).getD 0,
      match (vPriceStep order_type price).2 with
      | some v => if v = 0 then none else some v
      | none => none), ?_⟩
    simp only [validate_inputs]
    rw [if_pos h]

/-- C6 witness: four constraints violated at once; all four messages are
reported, joined by newlines. -/
theorem validate_inputs_reports_all_violations_witness :
    validate_inputs "BTC" "FOO" "LIMIT" "-1" none =
      .error "Symbol must be at least 6 characters (e.g., BTCUSDT)\nSide must be either 'BUY' or 'SELL'\nQuantity must be greater than 0\nPrice is required for LIMIT orders" := by
  have h := (validate_inputs_reports_all_violations "BTC" "FOO" "LIMIT" "-1" none).1 (by decide)
  exact h.trans (congrArg Except.error (by decide))

/-- C2 witness: the amended theorem applied to a concrete 503 response. -/
theorem http_error_wrapped_as_network_error_witness :
    send_request (fun _ _ _ => .ok ⟨503, "Service Unavailable", "u", "b", [], .ok []⟩)
      "k" "GET" "/x" [] false 0 =
      .error "Network error: 503 Server Error: Service Unavailable for url: u" ∧
    containsSubstr "503" "503 Server Error: Service Unavailable for url: u" = true :=
  ⟨(http_error_wrapped_as_network_error ⟨503, "Service Unavailable", "u", "b", [], .ok []⟩
      "k" "/x" [] false 0 "503 Server Error: Service Unavailable for url: u" rfl).1,
   (http_error_wrapped_as_network_error ⟨503, "Service Unavailable", "u", "b", [], .ok []⟩
      "k" "/x" [] false 0 "503 Server Error: Service Unavailable for url: u" rfl).2.1⟩

end FT
